import Mathlib

/-!
# Verification of the VPC provisioning service

Shallow embedding of the provisioning / teardown orchestration of the
FastAPI VPC service (files `app/cloud/ec2.py`, `app/services/vpc.py`,
`app/apis/vpc.py`, `app/schemas/vpc.py`, `app/dao/*`).

The cloud provider (boto3 EC2 client) is modelled as an environment
`EC2Env`: a function from an EC2 API call to its result (`Except
ClientError String`, the `String` being the id returned by create calls;
calls whose Python result is unused return an arbitrary string).  Each
orchestration function is embedded as a pure function returning the
ordered trace of EC2 calls it issued together with its outcome, so that
"which provider calls were made, in which order" is part of the
observable behaviour.
-/

set_option autoImplicit false

namespace VpcService

/-- `botocore.exceptions.ClientError`, reduced to the provider error code
the application inspects (`exc.response["Error"]["Code"]`). -/
structure ClientError where
  code : String
  deriving DecidableEq, Repr

/-- One entry of the `TagSpecifications` list built by `_tag_specs`. -/
structure TagSpec where
  resourceType : String
  tags : List (String × String)
  deriving DecidableEq, Repr

/-- `_tag_specs` from `app/cloud/ec2.py`: a one-element TagSpecifications
list holding the `Name` tag followed by the caller-supplied tags. -/
def tag_specs (resource_type : String) (name : String)
    (extra_tags : List (String × String)) : List TagSpec :=
  [{ resourceType := resource_type, tags := ("Name", name) :: extra_tags }]

/-- The EC2 API calls issued by `app/cloud/ec2.py`, with the payload the
code passes to each. -/
inductive EC2Call where
  | createVpc (cidrBlock : String) (tagSpecifications : List TagSpec)
  | modifyVpcAttributeHostnames (vpcId : String) (value : Bool)
  | modifyVpcAttributeDnsSupport (vpcId : String) (value : Bool)
  | createInternetGateway (tagSpecifications : List TagSpec)
  | attachInternetGateway (igwId : String) (vpcId : String)
  | createSubnet (vpcId : String) (cidrBlock : String) (az : String)
      (tagSpecifications : List TagSpec)
  | deleteSubnet (subnetId : String)
  | detachInternetGateway (igwId : String) (vpcId : String)
  | deleteInternetGateway (igwId : String)
  | deleteVpc (vpcId : String)
  | describeNetworkInterfaces (vpcId : String)
  | describeRouteTables (vpcId : String)
  | describeVpcEndpoints (vpcId : String)
  deriving DecidableEq, Repr

/-- The cloud provider: result of each EC2 call, plus the configured
region (`config.AWS_REGION`) and the current timestamp
(`datetime.now(timezone.utc).isoformat()`), both of which the
orchestrator copies into the record it builds. -/
structure EC2Env where
  result : EC2Call → Except ClientError String
  region : String
  now : String

/-- Python's `a or b` on an optional string: `None` and `""` are falsy,
so both fall back to the default.  Mirrors
`subnet_spec.get("name") or f"..."` in `create_vpc_with_subnets`. -/
def pyStrOr (v : Option String) (d : String) : String :=
  match v with
  | none => d
  | some s => if s = "" then d else s

/-- Python `tags or {}` on the optional tag dict (`extra_tags = tags or {}`). -/
def pyDictOr (tags : Option (List (String × String))) : List (String × String) :=
  match tags with
  | none => []
  | some t => t

/-- A subnet entry of the request payload (`SubnetRequest` /
the dicts passed to `create_vpc_with_subnets`): `cidr`, `az`,
optional `name`. -/
structure SubnetRequest where
  cidr : String
  az : String
  name : Option String
  deriving DecidableEq, Repr

/-- One element of the `created_subnets`/record `subnets` list
(= `SubnetDetail` in `app/schemas/vpc.py`). -/
structure SubnetDetail where
  subnet_id : String
  cidr : String
  availability_zone : String
  name : String
  deriving DecidableEq, Repr

/-- The structured record returned by `create_vpc_with_subnets` and
persisted by the service layer (= `VPCResponse` shape). -/
structure VpcRecord where
  vpc_id : String
  vpc_name : String
  vpc_cidr : String
  igw_id : String
  region : String
  subnets : List SubnetDetail
  tags : List (String × String)
  created_by : String
  created_at : String
  status : String
  deriving DecidableEq, Repr

/-- `_cleanup_on_error` from `app/cloud/ec2.py`: best-effort rollback.
Each `delete_subnet` sits in its own try/except (failure logged,
loop continues); `detach_internet_gateway` and
`delete_internet_gateway` share ONE try/except, so a detach failure
skips the gateway delete; `delete_vpc` has its own try/except.  The
function never raises; it returns the extended call trace. -/
def cleanup_on_error (env : EC2Env) (vpc_id : String) (igw_id : String)
    (subnet_ids : List String) (tr : List EC2Call) : List EC2Call :=
  let tr1 := tr ++ subnet_ids.map EC2Call.deleteSubnet
  let tr2 :=
    match env.result (EC2Call.detachInternetGateway igw_id vpc_id) with
    | Except.error _ => tr1 ++ [EC2Call.detachInternetGateway igw_id vpc_id]
    | Except.ok _ => tr1 ++ [EC2Call.detachInternetGateway igw_id vpc_id,
        EC2Call.deleteInternetGateway igw_id]
  tr2 ++ [EC2Call.deleteVpc vpc_id]

/-- The subnet loop of `create_vpc_with_subnets`
(`for idx, subnet_spec in enumerate(subnets)`).  On a failing
`create_subnet` it runs `cleanup_on_error` with the ids of the
subnets created so far (in creation order, as the source builds the
list) and re-raises the original error. -/
def createSubnetsLoop (env : EC2Env) (vpc_name : String) (vpc_id : String)
    (igw_id : String) (extra_tags : List (String × String)) (idx : Nat)
    (specs : List SubnetRequest) (created : List SubnetDetail)
    (tr : List EC2Call) : List EC2Call × Except ClientError (List SubnetDetail) :=
  match specs with
  | [] => (tr, Except.ok created)
  | spec :: rest =>
    let subnet_name := pyStrOr spec.name (vpc_name ++ "-subnet-" ++ toString (idx + 1))
    let call := EC2Call.createSubnet vpc_id spec.cidr spec.az
      (tag_specs "subnet" subnet_name extra_tags)
    match env.result call with
    | Except.error e =>
        (cleanup_on_error env vpc_id igw_id (created.map (fun s => s.subnet_id))
          (tr ++ [call]), Except.error e)
    | Except.ok subnet_id =>
        createSubnetsLoop env vpc_name vpc_id igw_id extra_tags (idx + 1) rest
          (created ++ [⟨subnet_id, spec.cidr, spec.az, subnet_name⟩])
          (tr ++ [call])

/-- `create_vpc_with_subnets` from `app/cloud/ec2.py`.  Steps: create
VPC (failure re-raised), enable DNS hostnames and support (no
try/except: failures propagate), create and attach the Internet
Gateway (no try/except), create the subnets (loop above), then build
the result record.  Returns the call trace and the outcome. -/
def create_vpc_with_subnets (env : EC2Env) (vpc_cidr : String)
    (subnets : List SubnetRequest) (vpc_name : String)
    (tags : Option (List (String × String))) (created_by : String) :
    List EC2Call × Except ClientError VpcRecord :=
  let extra_tags := pyDictOr tags
  let c1 := EC2Call.createVpc vpc_cidr (tag_specs "vpc" vpc_name extra_tags)
  match env.result c1 with
  | Except.error e => ([c1], Except.error e)
  | Except.ok vpc_id =>
    let c2 := EC2Call.modifyVpcAttributeHostnames vpc_id true
    match env.result c2 with
    | Except.error e => ([c1, c2], Except.error e)
    | Except.ok _ =>
      let c3 := EC2Call.modifyVpcAttributeDnsSupport vpc_id true
      match env.result c3 with
      | Except.error e => ([c1, c2, c3], Except.error e)
      | Except.ok _ =>
        let c4 := EC2Call.createInternetGateway
          (tag_specs "internet-gateway" (vpc_name ++ "-igw") extra_tags)
        match env.result c4 with
        | Except.error e => ([c1, c2, c3, c4], Except.error e)
        | Except.ok igw_id =>
          let c5 := EC2Call.attachInternetGateway igw_id vpc_id
          match env.result c5 with
          | Except.error e => ([c1, c2, c3, c4, c5], Except.error e)
          | Except.ok _ =>
            match createSubnetsLoop env vpc_name vpc_id igw_id extra_tags 0
                subnets [] [c1, c2, c3, c4, c5] with
            | (tr, Except.error e) => (tr, Except.error e)
            | (tr, Except.ok created) =>
              (tr, Except.ok {
                vpc_id := vpc_id, vpc_name := vpc_name, vpc_cidr := vpc_cidr,
                igw_id := igw_id, region := env.region, subnets := created,
                tags := extra_tags, created_by := created_by,
                created_at := env.now, status := "active" })

/-- The subnet-deletion loop of `delete_vpc_resources`: each failing
`delete_subnet` is logged and RE-RAISED, aborting the teardown at
that point. -/
def deleteSubnetsLoop (env : EC2Env) (subnet_ids : List String)
    (tr : List EC2Call) : List EC2Call × Except ClientError Unit :=
  match subnet_ids with
  | [] => (tr, Except.ok ())
  | sid :: rest =>
    let c := EC2Call.deleteSubnet sid
    match env.result c with
    | Except.error e => (tr ++ [c], Except.error e)
    | Except.ok _ => deleteSubnetsLoop env rest (tr ++ [c])

/-- The diagnostic sweep inside `delete_vpc_resources`' `delete_vpc`
failure handler: describe network interfaces, route tables and VPC
endpoints of the VPC.  Each describe call sits in its own try/except
whose failure is swallowed (`logger.exception`), so all three calls
are always issued and the results only feed the logs. -/
def diagnosticSweep (_env : EC2Env) (vpc_id : String) (tr : List EC2Call) :
    List EC2Call :=
  tr ++ [EC2Call.describeNetworkInterfaces vpc_id,
    EC2Call.describeRouteTables vpc_id,
    EC2Call.describeVpcEndpoints vpc_id]

/-- `delete_vpc_resources` from `app/cloud/ec2.py`: delete each supplied
subnet (first failure re-raised), then — when an `igw_id` was supplied —
detach and delete the gateway (one try/except, failure re-raised), then
delete the VPC.  A failing VPC delete triggers the diagnostic sweep and
the original error is re-raised after it. -/
def delete_vpc_resources (env : EC2Env) (vpc_id : String)
    (subnet_ids : Option (List String)) (igw_id : Option String) :
    List EC2Call × Except ClientError Unit :=
  match deleteSubnetsLoop env (subnet_ids.getD []) [] with
  | (tr, Except.error e) => (tr, Except.error e)
  | (tr, Except.ok _) =>
    let afterGw : List EC2Call × Except ClientError Unit :=
      match igw_id with
      | none => (tr, Except.ok ())
      | some g =>
        let cd := EC2Call.detachInternetGateway g vpc_id
        match env.result cd with
        | Except.error e => (tr ++ [cd], Except.error e)
        | Except.ok _ =>
          let cg := EC2Call.deleteInternetGateway g
          match env.result cg with
          | Except.error e => (tr ++ [cd, cg], Except.error e)
          | Except.ok _ => (tr ++ [cd, cg], Except.ok ())
    match afterGw with
    | (tr2, Except.error e) => (tr2, Except.error e)
    | (tr2, Except.ok _) =>
      let cv := EC2Call.deleteVpc vpc_id
      match env.result cv with
      | Except.error e => (diagnosticSweep env vpc_id (tr2 ++ [cv]), Except.error e)
      | Except.ok _ => (tr2 ++ [cv], Except.ok ())

/-! ## Repository (`VPCRepository` contract of `app/dao/base.py`)

A key-value store keyed by `vpc_id`: `save` is an upsert (full
replace, as the DynamoDB `put_item` implementation), `delete` removes
the item and reports whether it existed.  Embedded as a list of
records with unique `vpc_id`s. -/

abbrev RepoState := List VpcRecord

/-- `save(record)`: upsert by `vpc_id` (PutItem full replace). -/
def repo_save (st : RepoState) (r : VpcRecord) : RepoState :=
  (st.filter (fun x => x.vpc_id ≠ r.vpc_id)) ++ [r]

/-- `get(vpc_id)`: the stored record, if any. -/
def repo_get (st : RepoState) (vpc_id : String) : Option VpcRecord :=
  st.find? (fun r => r.vpc_id = vpc_id)

/-- `delete(vpc_id)`: remove the record; `true` iff it existed. -/
def repo_delete (st : RepoState) (vpc_id : String) : RepoState × Bool :=
  if st.any (fun r => r.vpc_id = vpc_id) then
    (st.filter (fun r => r.vpc_id ≠ vpc_id), true)
  else (st, false)

/-! ## Request schema and validation (`app/schemas/vpc.py`) -/

/-- `CreateVPCRequest`: body of `POST /vpc`. -/
structure CreateVPCRequest where
  vpc_cidr : String
  vpc_name : String
  subnets : List SubnetRequest
  tags : Option (List (String × String))
  deriving DecidableEq, Repr

/-- One decimal digit, as a value. -/
def charDigit? (c : Char) : Option Nat :=
  if c.isDigit then some (c.toNat - Char.toNat (Char.ofNat 48)) else none

def parseNatAux : List Char → Nat → Option Nat
  | [], acc => some acc
  | c :: rest, acc =>
    match charDigit? c with
    | none => none
    | some d => parseNatAux rest (acc * 10 + d)

/-- Decimal number from a nonempty all-digit character list. -/
def parseNatList : List Char → Option Nat
  | [] => none
  | c :: rest => parseNatAux (c :: rest) 0

/-- Split a character list on a separator, Python `str.split` style
(an empty input yields one empty group). -/
def splitOnChar (sep : Char) : List Char → List (List Char)
  | [] => [[]]
  | c :: rest =>
    match splitOnChar sep rest with
    | [] => if c = sep then [[], []] else [[c]]
    | g :: gs => if c = sep then [] :: g :: gs else (c :: g) :: gs

/-- One octet of a dotted-quad IPv4 address: decimal, ≤ 255, no extra
leading zero (as `ipaddress` rejects ambiguous octets). -/
def parseOctet (cs : List Char) : Option Nat :=
  match parseNatList cs with
  | none => none
  | some n =>
    if n ≤ 255 ∧ (cs.length = 1 ∨ cs.head? ≠ some (Char.ofNat 48)) then some n
    else none

/-- Dotted-quad IPv4 address parser (fragment of stdlib
`ipaddress.IPv4Network` handling used by the validators). -/
def parseIPv4 (cs : List Char) : Option (Nat × Nat × Nat × Nat) :=
  match splitOnChar (Char.ofNat 46) cs with
  | [a, b, c, d] =>
    match parseOctet a, parseOctet b, parseOctet c, parseOctet d with
    | some x, some y, some z, some w => some (x, y, z, w)
    | _, _, _, _ => none
  | _ => none

/-- `ipaddress.IPv4Network(v, strict=False)` on the `addr/len` (or bare
`addr`, meaning /32) input form: returns the address and the numeric
prefix length, or `none` when parsing fails (→ `ValueError`). -/
def parseIPv4Network (s : String) : Option ((Nat × Nat × Nat × Nat) × Nat) :=
  match splitOnChar (Char.ofNat 47) s.toList with
  | [addr] => (parseIPv4 addr).map (fun ip => (ip, 32))
  | [addr, p] =>
    match parseIPv4 addr, parseNatList p with
    | some ip, some n => if n ≤ 32 then some (ip, n) else none
    | _, _ => none
  | _ => none

/-- `SubnetRequest.validate_cidr`: the subnet CIDR must parse as an IPv4
network (any prefix length). -/
def validate_cidr (v : String) : Bool :=
  (parseIPv4Network v).isSome

/-- `CreateVPCRequest.validate_vpc_cidr`: the VPC CIDR must parse and
have prefix length in [16, 28] (`net.prefixlen > 28 or net.prefixlen
< 16` raises). -/
def validate_vpc_cidr (v : String) : Bool :=
  match parseIPv4Network v with
  | none => false
  | some (_, p) => ¬ (p > 28 ∨ p < 16)

/-- Pydantic validation of the whole `CreateVPCRequest`: VPC CIDR valid,
`subnets` has `min_length=1`, every subnet CIDR valid.  FastAPI runs
this before the route handler, so a failing request never reaches the
service layer. -/
def validateCreateVPCRequest (r : CreateVPCRequest) : Bool :=
  validate_vpc_cidr r.vpc_cidr && decide (1 ≤ r.subnets.length) &&
    r.subnets.all (fun s => validate_cidr s.cidr)

/-! ## Service layer (`app/services/vpc.py`) -/

/-- `provision_vpc`: run `create_vpc_with_subnets`, and persist the
record via `repo.save` ONLY on success (a raised error propagates
before the save line runs).  Returns the EC2 call trace, the new
repository state and the outcome. -/
def provision_vpc (env : EC2Env) (request : CreateVPCRequest)
    (created_by : String) (st : RepoState) :
    List EC2Call × RepoState × Except ClientError VpcRecord :=
  match create_vpc_with_subnets env request.vpc_cidr request.subnets
      request.vpc_name request.tags created_by with
  | (tr, Except.error e) => (tr, st, Except.error e)
  | (tr, Except.ok record) => (tr, repo_save st record, Except.ok record)

/-- `remove_vpc_record`: `repo.delete(vpc_id)` and nothing else — the
docstring notes it "does NOT touch the real AWS VPC". -/
def remove_vpc_record (vpc_id : String) (st : RepoState) : RepoState × Bool :=
  repo_delete st vpc_id

/-! ## API layer (`app/apis/vpc.py`) -/

/-- Transport-level outcome of `POST /vpc`. -/
inductive CreateOutcome where
  | created (record : VpcRecord)
  | validationError
  | badGateway (e : ClientError)
  deriving DecidableEq, Repr

/-- Transport-level outcome of `DELETE /vpc/{vpc_id}`. -/
inductive DeleteOutcome where
  | noContent
  | notFound
  | conflict
  | badGateway (e : ClientError)
  deriving DecidableEq, Repr

/-- `POST /vpc` (`create_vpc` route): pydantic validation first; then
`provision_vpc`; any exception becomes a 502 `badGateway`. -/
def create_vpc_endpoint (env : EC2Env) (body : CreateVPCRequest)
    (current_user : String) (st : RepoState) :
    List EC2Call × RepoState × CreateOutcome :=
  if validateCreateVPCRequest body then
    match provision_vpc env body current_user st with
    | (tr, st2, Except.error e) => (tr, st2, CreateOutcome.badGateway e)
    | (tr, st2, Except.ok r) => (tr, st2, CreateOutcome.created r)
  else ([], st, CreateOutcome.validationError)

/-- `DELETE /vpc/{vpc_id}` (`delete_vpc` route): calls
`remove_vpc_record` — which only touches the repository — and maps
`False` to 404.  No EC2 function is invoked anywhere in this path
(`delete_vpc_resources` has no caller), so the route's
`except ClientError` arm mapping `DependencyViolation` to a 409
conflict is unreachable for provider-side dependency errors; the
returned trace of EC2 calls is therefore always empty. -/
def delete_vpc_endpoint (_env : EC2Env) (vpc_id : String) (st : RepoState) :
    List EC2Call × RepoState × DeleteOutcome :=
  let (st2, deleted) := remove_vpc_record vpc_id st
  ([], st2, if deleted then DeleteOutcome.noContent else DeleteOutcome.notFound)

/-! ## Helper notions for the theorems -/

/-- The auto-generated subnet name for 0-based index `idx`:
`f"{vpc_name}-subnet-{idx + 1}"`. -/
def subnetAutoName (vpc_name : String) (idx : Nat) : String :=
  vpc_name ++ "-subnet-" ++ toString (idx + 1)

/-- The `create_subnet` call the loop issues for the spec at 0-based
index `idx`. -/
def subnetCreateCall (vpc_id : String) (vpc_name : String)
    (extra_tags : List (String × String)) (idx : Nat) (spec : SubnetRequest) :
    EC2Call :=
  EC2Call.createSubnet vpc_id spec.cidr spec.az
    (tag_specs "subnet" (pyStrOr spec.name (subnetAutoName vpc_name idx)) extra_tags)

/-- The `create_subnet` calls for a list of specs starting at index `idx`. -/
def subnetCreateCalls (vpc_id : String) (vpc_name : String)
    (extra_tags : List (String × String)) (idx : Nat) :
    List SubnetRequest → List EC2Call
  | [] => []
  | spec :: rest =>
    subnetCreateCall vpc_id vpc_name extra_tags idx spec ::
      subnetCreateCalls vpc_id vpc_name extra_tags (idx + 1) rest

/-- The `SubnetDetail` entries the loop builds for a list of specs
starting at index `idx`, when the provider assigns id `ids i` to the
subnet created at absolute index `i`. -/
def buildSubnets (vpc_name : String) (ids : Nat → String) (idx : Nat) :
    List SubnetRequest → List SubnetDetail
  | [] => []
  | spec :: rest =>
    ⟨ids idx, spec.cidr, spec.az, pyStrOr spec.name (subnetAutoName vpc_name idx)⟩ ::
      buildSubnets vpc_name ids (idx + 1) rest

/-- `Except.ok`-ness, as a Bool. -/
def exceptIsOk (r : Except ClientError String) : Bool :=
  match r with
  | Except.ok _ => true
  | Except.error _ => false

/-- Is the call a `delete_subnet` call? -/
def isDeleteSubnetCall (c : EC2Call) : Bool :=
  match c with
  | EC2Call.deleteSubnet _ => true
  | _ => false

theorem buildSubnets_length (vpc_name : String) (ids : Nat → String) :
    ∀ (specs : List SubnetRequest) (idx : Nat),
      (buildSubnets vpc_name ids idx specs).length = specs.length := by
  intro specs
  induction specs with
  | nil => intro idx; rfl
  | cons spec rest ih => intro idx; simp [buildSubnets, ih (idx + 1)]

theorem buildSubnets_getElem (vpc_name : String) (ids : Nat → String) :
    ∀ (specs : List SubnetRequest) (idx i : Nat) (hi : i < specs.length),
      (buildSubnets vpc_name ids idx specs)[i]? =
        some ⟨ids (idx + i), (specs.get ⟨i, hi⟩).cidr, (specs.get ⟨i, hi⟩).az,
          pyStrOr (specs.get ⟨i, hi⟩).name (subnetAutoName vpc_name (idx + i))⟩ := by
  intro specs
  induction specs with
  | nil => intro idx i hi; exact absurd hi (by simp)
  | cons spec rest ih =>
    intro idx i hi
    cases i with
    | zero => simp [buildSubnets]
    | succ j =>
      have hj : j < rest.length := by simpa using Nat.lt_of_succ_lt_succ hi
      have := ih (idx + 1) j hj
      simp only [buildSubnets, List.getElem?_cons_succ, this, List.get]
      have harith : idx + 1 + j = idx + (j + 1) := by omega
      rw [harith]

/-- Unfolding step of the subnet loop: a successful `create_subnet`. -/
theorem createSubnetsLoop_cons_ok (env : EC2Env) (vpc_name vpc_id igw_id : String)
    (extra_tags : List (String × String)) (idx : Nat) (spec : SubnetRequest)
    (rest : List SubnetRequest) (created : List SubnetDetail) (tr : List EC2Call)
    (sid : String)
    (h : env.result (subnetCreateCall vpc_id vpc_name extra_tags idx spec) =
      Except.ok sid) :
    createSubnetsLoop env vpc_name vpc_id igw_id extra_tags idx (spec :: rest)
        created tr =
      createSubnetsLoop env vpc_name vpc_id igw_id extra_tags (idx + 1) rest
        (created ++ [⟨sid, spec.cidr, spec.az,
          pyStrOr spec.name (subnetAutoName vpc_name idx)⟩])
        (tr ++ [subnetCreateCall vpc_id vpc_name extra_tags idx spec]) := by
  simp only [createSubnetsLoop, subnetCreateCall, subnetAutoName] at h ⊢
  rw [h]

/-- Unfolding step of the subnet loop: a failing `create_subnet` runs
the best-effort cleanup and returns the original error. -/
theorem createSubnetsLoop_cons_err (env : EC2Env) (vpc_name vpc_id igw_id : String)
    (extra_tags : List (String × String)) (idx : Nat) (spec : SubnetRequest)
    (rest : List SubnetRequest) (created : List SubnetDetail) (tr : List EC2Call)
    (e : ClientError)
    (h : env.result (subnetCreateCall vpc_id vpc_name extra_tags idx spec) =
      Except.error e) :
    createSubnetsLoop env vpc_name vpc_id igw_id extra_tags idx (spec :: rest)
        created tr =
      (cleanup_on_error env vpc_id igw_id (created.map (fun s => s.subnet_id))
        (tr ++ [subnetCreateCall vpc_id vpc_name extra_tags idx spec]),
       Except.error e) := by
  simp only [createSubnetsLoop, subnetCreateCall, subnetAutoName] at h ⊢
  rw [h]

/-- On an all-success environment the subnet loop appends one
`create_subnet` call and one `SubnetDetail` per spec, in request
order. -/
theorem createSubnetsLoop_ok (env : EC2Env) (vpc_name vpc_id igw_id : String)
    (extra_tags : List (String × String)) (ids : Nat → String) :
    ∀ (specs : List SubnetRequest) (idx : Nat) (created : List SubnetDetail)
      (tr : List EC2Call),
      (∀ i (hi : i < specs.length),
        env.result (subnetCreateCall vpc_id vpc_name extra_tags (idx + i)
          (specs.get ⟨i, hi⟩)) = Except.ok (ids (idx + i))) →
      createSubnetsLoop env vpc_name vpc_id igw_id extra_tags idx specs created tr =
        (tr ++ subnetCreateCalls vpc_id vpc_name extra_tags idx specs,
         Except.ok (created ++ buildSubnets vpc_name ids idx specs)) := by
  intro specs
  induction specs with
  | nil =>
    intro idx created tr _
    simp [createSubnetsLoop, subnetCreateCalls, buildSubnets]
  | cons spec rest ih =>
    intro idx created tr hsucc
    have h0 : env.result (subnetCreateCall vpc_id vpc_name extra_tags idx spec) =
        Except.ok (ids idx) := by
      have := hsucc 0 (by simp)
      simpa using this
    have hrest : ∀ i (hi : i < rest.length),
        env.result (subnetCreateCall vpc_id vpc_name extra_tags ((idx + 1) + i)
          (rest.get ⟨i, hi⟩)) = Except.ok (ids ((idx + 1) + i)) := by
      intro i hi
      have := hsucc (i + 1) (by simpa using Nat.succ_lt_succ hi)
      have harith : idx + (i + 1) = (idx + 1) + i := by omega
      rw [harith] at this
      simpa [List.get] using this
    rw [createSubnetsLoop_cons_ok env vpc_name vpc_id igw_id extra_tags idx spec
      rest created tr (ids idx) h0]
    rw [ih (idx + 1) _ _ hrest]
    simp [subnetCreateCalls, buildSubnets]

/-- When the subnet creations at indices `idx..idx+k-1` succeed and the
one at `idx+k` fails, the loop issues the `k + 1` create calls, runs
`cleanup_on_error` on the already-created ids — accumulated in
creation order — and returns the original error. -/
theorem createSubnetsLoop_fail (env : EC2Env) (vpc_name vpc_id igw_id : String)
    (extra_tags : List (String × String)) (ids : Nat → String) (e : ClientError) :
    ∀ (specs : List SubnetRequest) (k idx : Nat) (created : List SubnetDetail)
      (tr : List EC2Call) (hk : k < specs.length),
      (∀ i (hi : i < k),
        env.result (subnetCreateCall vpc_id vpc_name extra_tags (idx + i)
          (specs.get ⟨i, Nat.lt_trans hi hk⟩)) = Except.ok (ids (idx + i))) →
      env.result (subnetCreateCall vpc_id vpc_name extra_tags (idx + k)
        (specs.get ⟨k, hk⟩)) = Except.error e →
      createSubnetsLoop env vpc_name vpc_id igw_id extra_tags idx specs created tr =
        (cleanup_on_error env vpc_id igw_id
          (created.map (fun s => s.subnet_id) ++
            (List.range k).map (fun i => ids (idx + i)))
          (tr ++ subnetCreateCalls vpc_id vpc_name extra_tags idx
            (specs.take (k + 1))),
         Except.error e) := by
  intro specs
  induction specs with
  | nil => intro k idx created tr hk; exact absurd hk (by simp)
  | cons spec rest ih =>
    intro k idx created tr hk hsucc hfail
    cases k with
    | zero =>
      have h0 : env.result (subnetCreateCall vpc_id vpc_name extra_tags idx spec) =
          Except.error e := by simpa using hfail
      rw [createSubnetsLoop_cons_err env vpc_name vpc_id igw_id extra_tags idx spec
        rest created tr e h0]
      simp [subnetCreateCalls]
    | succ k' =>
      have hk' : k' < rest.length := by simpa using Nat.lt_of_succ_lt_succ hk
      have h0 : env.result (subnetCreateCall vpc_id vpc_name extra_tags idx spec) =
          Except.ok (ids idx) := by
        have := hsucc 0 (Nat.succ_pos k')
        simpa using this
      have hrest : ∀ i (hi : i < k'),
          env.result (subnetCreateCall vpc_id vpc_name extra_tags ((idx + 1) + i)
            (rest.get ⟨i, Nat.lt_trans hi hk'⟩)) = Except.ok (ids ((idx + 1) + i)) := by
        intro i hi
        have := hsucc (i + 1) (Nat.succ_lt_succ hi)
        have harith : idx + (i + 1) = (idx + 1) + i := by omega
        rw [harith] at this
        simpa [List.get] using this
      have hfail' : env.result (subnetCreateCall vpc_id vpc_name extra_tags
          ((idx + 1) + k') (rest.get ⟨k', hk'⟩)) = Except.error e := by
        have harith : idx + (k' + 1) = (idx + 1) + k' := by omega
        rw [harith] at hfail
        simpa [List.get] using hfail
      rw [createSubnetsLoop_cons_ok env vpc_name vpc_id igw_id extra_tags idx spec
        rest created tr (ids idx) h0]
      rw [ih k' (idx + 1) _ _ hk' hrest hfail']
      have hfun : (fun i => ids ((idx + 1) + i)) = (fun i => ids (idx + (i + 1))) := by
        funext i
        congr 1
        omega
      rw [hfun]
      have hids : (List.range (k' + 1)).map (fun i => ids (idx + i)) =
          ids idx :: (List.range k').map (fun i => ids (idx + (i + 1))) := by
        rw [List.range_succ_eq_map, List.map_cons, List.map_map]
        simp [Function.comp]
      rw [hids]
      simp [subnetCreateCalls]

/-- The five calls `create_vpc_with_subnets` issues before the subnet
loop, given that all of them succeed with the ids shown. -/
def initCalls (vpc_cidr vpc_name : String) (extra_tags : List (String × String))
    (vpc_id igw_id : String) : List EC2Call :=
  [EC2Call.createVpc vpc_cidr (tag_specs "vpc" vpc_name extra_tags),
   EC2Call.modifyVpcAttributeHostnames vpc_id true,
   EC2Call.modifyVpcAttributeDnsSupport vpc_id true,
   EC2Call.createInternetGateway
     (tag_specs "internet-gateway" (vpc_name ++ "-igw") extra_tags),
   EC2Call.attachInternetGateway igw_id vpc_id]

/-- Closed form of the best-effort cleanup trace: the already-created
subnet ids are deleted one by one IN THE ORDER GIVEN, then the
gateway is detached (and deleted only when the detach succeeded),
then the VPC delete is attempted. -/
theorem cleanup_on_error_eq (env : EC2Env) (vpc_id igw_id : String)
    (subnet_ids : List String) (tr : List EC2Call) :
    cleanup_on_error env vpc_id igw_id subnet_ids tr =
      tr ++ subnet_ids.map EC2Call.deleteSubnet ++
      (match env.result (EC2Call.detachInternetGateway igw_id vpc_id) with
       | Except.error _ => [EC2Call.detachInternetGateway igw_id vpc_id]
       | Except.ok _ => [EC2Call.detachInternetGateway igw_id vpc_id,
           EC2Call.deleteInternetGateway igw_id]) ++
      [EC2Call.deleteVpc vpc_id] := by
  simp only [cleanup_on_error]
  cases env.result (EC2Call.detachInternetGateway igw_id vpc_id) <;> simp

/-- Unfolding of `create_vpc_with_subnets` when VPC creation, both DNS
attribute calls, gateway creation and gateway attach all succeed. -/
theorem create_vpc_with_subnets_stepsOk (env : EC2Env) (vpc_cidr : String)
    (subnets : List SubnetRequest) (vpc_name : String)
    (tags : Option (List (String × String))) (created_by : String)
    (vpc_id igw_id r2 r3 r5 : String)
    (h1 : env.result (EC2Call.createVpc vpc_cidr
      (tag_specs "vpc" vpc_name (pyDictOr tags))) = Except.ok vpc_id)
    (h2 : env.result (EC2Call.modifyVpcAttributeHostnames vpc_id true) =
      Except.ok r2)
    (h3 : env.result (EC2Call.modifyVpcAttributeDnsSupport vpc_id true) =
      Except.ok r3)
    (h4 : env.result (EC2Call.createInternetGateway
      (tag_specs "internet-gateway" (vpc_name ++ "-igw") (pyDictOr tags))) =
      Except.ok igw_id)
    (h5 : env.result (EC2Call.attachInternetGateway igw_id vpc_id) =
      Except.ok r5) :
    create_vpc_with_subnets env vpc_cidr subnets vpc_name tags created_by =
      (match createSubnetsLoop env vpc_name vpc_id igw_id (pyDictOr tags) 0
          subnets [] (initCalls vpc_cidr vpc_name (pyDictOr tags) vpc_id igw_id) with
       | (tr, Except.error e) => (tr, Except.error e)
       | (tr, Except.ok created) =>
         (tr, Except.ok ⟨vpc_id, vpc_name, vpc_cidr, igw_id, env.region, created,
           pyDictOr tags, created_by, env.now, "active"⟩)) := by
  simp only [create_vpc_with_subnets, initCalls, h1, h2, h3, h4, h5]

/-- The teardown subnet-deletion loop when every delete succeeds. -/
theorem deleteSubnetsLoop_ok (env : EC2Env) :
    ∀ (sids : List String) (tr : List EC2Call),
      (∀ i (hi : i < sids.length),
        exceptIsOk (env.result (EC2Call.deleteSubnet (sids.get ⟨i, hi⟩))) = true) →
      deleteSubnetsLoop env sids tr =
        (tr ++ sids.map EC2Call.deleteSubnet, Except.ok ()) := by
  intro sids
  induction sids with
  | nil => intro tr _; simp [deleteSubnetsLoop]
  | cons sid rest ih =>
    intro tr hs
    have h0 : exceptIsOk (env.result (EC2Call.deleteSubnet sid)) = true := by
      simpa using hs 0 (by simp)
    have hrest : ∀ i (hi : i < rest.length),
        exceptIsOk (env.result (EC2Call.deleteSubnet (rest.get ⟨i, hi⟩))) = true := by
      intro i hi
      have := hs (i + 1) (by simpa using Nat.succ_lt_succ hi)
      simpa [List.get] using this
    simp only [deleteSubnetsLoop]
    cases hres : env.result (EC2Call.deleteSubnet sid) with
    | error e => rw [hres] at h0; simp [exceptIsOk] at h0
    | ok r => rw [ih (tr ++ [EC2Call.deleteSubnet sid]) hrest]; simp

/-- The teardown subnet-deletion loop aborts at the FIRST failing
delete: the trace stops at the failing call and the error is
re-raised. -/
theorem deleteSubnetsLoop_fail (env : EC2Env) (e : ClientError) :
    ∀ (sids : List String) (k : Nat) (tr : List EC2Call) (hk : k < sids.length),
      (∀ i (hi : i < k),
        exceptIsOk (env.result (EC2Call.deleteSubnet
          (sids.get ⟨i, Nat.lt_trans hi hk⟩))) = true) →
      env.result (EC2Call.deleteSubnet (sids.get ⟨k, hk⟩)) = Except.error e →
      deleteSubnetsLoop env sids tr =
        (tr ++ (sids.take (k + 1)).map EC2Call.deleteSubnet, Except.error e) := by
  intro sids
  induction sids with
  | nil => intro k tr hk; exact absurd hk (by simp)
  | cons sid rest ih =>
    intro k tr hk hs hf
    cases k with
    | zero =>
      have h0 : env.result (EC2Call.deleteSubnet sid) = Except.error e := by
        simpa [List.get] using hf
      simp [deleteSubnetsLoop, h0]
    | succ k' =>
      have hk' : k' < rest.length := by simpa using Nat.lt_of_succ_lt_succ hk
      have h0 : exceptIsOk (env.result (EC2Call.deleteSubnet sid)) = true := by
        simpa using hs 0 (Nat.succ_pos k')
      have hrest : ∀ i (hi : i < k'),
          exceptIsOk (env.result (EC2Call.deleteSubnet
            (rest.get ⟨i, Nat.lt_trans hi hk'⟩))) = true := by
        intro i hi
        have := hs (i + 1) (Nat.succ_lt_succ hi)
        simpa [List.get] using this
      have hf' : env.result (EC2Call.deleteSubnet (rest.get ⟨k', hk'⟩)) =
          Except.error e := by simpa [List.get] using hf
      simp only [deleteSubnetsLoop]
      cases hres : env.result (EC2Call.deleteSubnet sid) with
      | error e2 => rw [hres] at h0; simp [exceptIsOk] at h0
      | ok r =>
        rw [ih k' (tr ++ [EC2Call.deleteSubnet sid]) hk' hrest hf']
        simp

/-- C4: a creation failure — at whatever step — leaves the repository
untouched; `repo.save` runs only on full success, and then with
exactly the record the orchestrator returned. -/
theorem provision_persists_only_on_success (env : EC2Env)
    (request : CreateVPCRequest) (created_by : String) (st : RepoState) :
    (∀ e, (provision_vpc env request created_by st).2.2 = Except.error e →
      (provision_vpc env request created_by st).2.1 = st) ∧
    (∀ r, (provision_vpc env request created_by st).2.2 = Except.ok r →
      (provision_vpc env request created_by st).2.1 = repo_save st r) := by
  rcases hcr : create_vpc_with_subnets env request.vpc_cidr request.subnets
      request.vpc_name request.tags created_by with ⟨tr, res⟩
  cases res with
  | error e2 =>
    constructor
    · intro e _; simp [provision_vpc, hcr]
    · intro r hr; simp [provision_vpc, hcr] at hr
  | ok rec =>
    constructor
    · intro e he; simp [provision_vpc, hcr] at he
    · intro r hr
      simp [provision_vpc, hcr] at hr ⊢
      rw [hr]

/-- Environment in which every EC2 call fails. -/
def envC4 : EC2Env :=
  ⟨fun _ => Except.error ⟨"VpcLimitExceeded"⟩, "us-east-1", "t0"⟩

def reqC4 : CreateVPCRequest :=
  ⟨"10.0.0.0/16", "demo", [⟨"10.0.1.0/24", "us-east-1a", none⟩], none⟩

/-- C4 witness: with a failing provider the outcome is the provider
error and the repository is unchanged. -/
theorem provision_persists_only_on_success_witness :
    (provision_vpc envC4 reqC4 "alice" []).2.2 =
      Except.error ⟨"VpcLimitExceeded"⟩ ∧
    (provision_vpc envC4 reqC4 "alice" []).2.1 = ([] : RepoState) :=
  ⟨rfl, (provision_persists_only_on_success envC4 reqC4 "alice" []).1
    ⟨"VpcLimitExceeded"⟩ rfl⟩

/-- C7: when gateway creation (or gateway attach) fails after the VPC
was created, the error propagates unchanged and the trace ends at the
failing call — no delete/detach call of any kind is issued, so the
already-created network is left in place. -/
theorem gateway_failure_propagates_without_cleanup (env : EC2Env)
    (vpc_cidr : String) (subnets : List SubnetRequest) (vpc_name : String)
    (tags : Option (List (String × String))) (created_by : String)
    (vpc_id r2 r3 : String) (e : ClientError)
    (h1 : env.result (EC2Call.createVpc vpc_cidr
      (tag_specs "vpc" vpc_name (pyDictOr tags))) = Except.ok vpc_id)
    (h2 : env.result (EC2Call.modifyVpcAttributeHostnames vpc_id true) =
      Except.ok r2)
    (h3 : env.result (EC2Call.modifyVpcAttributeDnsSupport vpc_id true) =
      Except.ok r3) :
    (env.result (EC2Call.createInternetGateway
        (tag_specs "internet-gateway" (vpc_name ++ "-igw") (pyDictOr tags))) =
        Except.error e →
      create_vpc_with_subnets env vpc_cidr subnets vpc_name tags created_by =
        ([EC2Call.createVpc vpc_cidr (tag_specs "vpc" vpc_name (pyDictOr tags)),
          EC2Call.modifyVpcAttributeHostnames vpc_id true,
          EC2Call.modifyVpcAttributeDnsSupport vpc_id true,
          EC2Call.createInternetGateway
            (tag_specs "internet-gateway" (vpc_name ++ "-igw") (pyDictOr tags))],
         Except.error e)) ∧
    (∀ igw_id, env.result (EC2Call.createInternetGateway
        (tag_specs "internet-gateway" (vpc_name ++ "-igw") (pyDictOr tags))) =
        Except.ok igw_id →
      env.result (EC2Call.attachInternetGateway igw_id vpc_id) = Except.error e →
      create_vpc_with_subnets env vpc_cidr subnets vpc_name tags created_by =
        ([EC2Call.createVpc vpc_cidr (tag_specs "vpc" vpc_name (pyDictOr tags)),
          EC2Call.modifyVpcAttributeHostnames vpc_id true,
          EC2Call.modifyVpcAttributeDnsSupport vpc_id true,
          EC2Call.createInternetGateway
            (tag_specs "internet-gateway" (vpc_name ++ "-igw") (pyDictOr tags)),
          EC2Call.attachInternetGateway igw_id vpc_id],
         Except.error e)) := by
  constructor
  · intro h4
    simp [create_vpc_with_subnets, h1, h2, h3, h4]
  · intro igw_id h4 h5
    simp [create_vpc_with_subnets, h1, h2, h3, h4, h5]

/-- Environment in which Internet Gateway creation fails and everything
before it succeeds. -/
def envC7 : EC2Env :=
  ⟨fun c =>
    match c with
    | EC2Call.createInternetGateway _ => Except.error ⟨"InternalError"⟩
    | _ => Except.ok "vpc-7",
   "us-east-1", "t0"⟩

/-- C7 witness: gateway-creation failure surfaces unchanged, trace ends
at the failing call. -/
theorem gateway_failure_propagates_without_cleanup_witness :
    create_vpc_with_subnets envC7 "10.0.0.0/16"
        [⟨"10.0.1.0/24", "us-east-1a", none⟩] "demo" none "api" =
      ([EC2Call.createVpc "10.0.0.0/16" (tag_specs "vpc" "demo" []),
        EC2Call.modifyVpcAttributeHostnames "vpc-7" true,
        EC2Call.modifyVpcAttributeDnsSupport "vpc-7" true,
        EC2Call.createInternetGateway (tag_specs "internet-gateway" "demo-igw" [])],
       Except.error ⟨"InternalError"⟩) :=
  (gateway_failure_propagates_without_cleanup envC7 "10.0.0.0/16"
    [⟨"10.0.1.0/24", "us-east-1a", none⟩] "demo" none "api"
    "vpc-7" "vpc-7" "vpc-7" ⟨"InternalError"⟩ rfl rfl rfl).1 rfl

/-- C8: teardown is fatal-on-first-failure.  A failing subnet delete
aborts the workflow at that call (no later subnet, gateway or VPC
call); a failing gateway detach aborts before the gateway delete; a
failing gateway delete aborts before the VPC delete.  In each case
the error is re-raised unchanged. -/
theorem teardown_first_failure_is_fatal (env : EC2Env) (vpc_id : String)
    (sids : List String) (g : String) :
    (∀ k (hk : k < sids.length) e,
      (∀ i (hi : i < k), exceptIsOk (env.result (EC2Call.deleteSubnet
        (sids.get ⟨i, Nat.lt_trans hi hk⟩))) = true) →
      env.result (EC2Call.deleteSubnet (sids.get ⟨k, hk⟩)) = Except.error e →
      delete_vpc_resources env vpc_id (some sids) (some g) =
        ((sids.take (k + 1)).map EC2Call.deleteSubnet, Except.error e)) ∧
    (∀ e, (∀ i (hi : i < sids.length), exceptIsOk (env.result
        (EC2Call.deleteSubnet (sids.get ⟨i, hi⟩))) = true) →
      env.result (EC2Call.detachInternetGateway g vpc_id) = Except.error e →
      delete_vpc_resources env vpc_id (some sids) (some g) =
        (sids.map EC2Call.deleteSubnet ++ [EC2Call.detachInternetGateway g vpc_id],
         Except.error e)) ∧
    (∀ e r, (∀ i (hi : i < sids.length), exceptIsOk (env.result
        (EC2Call.deleteSubnet (sids.get ⟨i, hi⟩))) = true) →
      env.result (EC2Call.detachInternetGateway g vpc_id) = Except.ok r →
      env.result (EC2Call.deleteInternetGateway g) = Except.error e →
      delete_vpc_resources env vpc_id (some sids) (some g) =
        (sids.map EC2Call.deleteSubnet ++ [EC2Call.detachInternetGateway g vpc_id,
           EC2Call.deleteInternetGateway g],
         Except.error e)) := by
  refine ⟨?_, ?_, ?_⟩
  · intro k hk e hs hf
    simp only [delete_vpc_resources, Option.getD_some]
    rw [deleteSubnetsLoop_fail env e sids k [] hk hs hf]
    simp
  · intro e hs hd
    simp only [delete_vpc_resources, Option.getD_some]
    rw [deleteSubnetsLoop_ok env sids [] hs]
    simp only [hd]
    simp
  · intro e r hs hd hg
    simp only [delete_vpc_resources, Option.getD_some]
    rw [deleteSubnetsLoop_ok env sids [] hs]
    simp only [hd, hg]
    simp

/-- Environment in which deleting subnet `s2` fails and everything else
succeeds. -/
def envC8 : EC2Env :=
  ⟨fun c =>
    match c with
    | EC2Call.deleteSubnet sid =>
      if sid = "s2" then Except.error ⟨"DependencyViolation"⟩ else Except.ok ""
    | _ => Except.ok "",
   "us-east-1", "t0"⟩

/-- C8 witness: with subnets `[s1, s2, s3]` and `s2` failing, teardown
stops right after the failing call — `s3`, the gateway and the VPC
are never touched. -/
theorem teardown_first_failure_is_fatal_witness :
    delete_vpc_resources envC8 "vpc-8" (some ["s1", "s2", "s3"]) (some "igw-8") =
      ([EC2Call.deleteSubnet "s1", EC2Call.deleteSubnet "s2"],
       Except.error ⟨"DependencyViolation"⟩) :=
  (teardown_first_failure_is_fatal envC8 "vpc-8" ["s1", "s2", "s3"] "igw-8").1
    1 (by decide) ⟨"DependencyViolation"⟩
    (by intro i hi; interval_cases i; rfl) rfl

/-- C9: when the final VPC delete of a teardown fails, the three
diagnostic describe calls are issued and the ORIGINAL delete error is
re-raised — for every environment, i.e. regardless of what the
diagnostic calls themselves return. -/
theorem teardown_diagnostic_sweep_preserves_error (env : EC2Env)
    (vpc_id : String) (sids : List String) (g : String) (e : ClientError)
    (r1 r2 : String)
    (hs : ∀ i (hi : i < sids.length), exceptIsOk (env.result
      (EC2Call.deleteSubnet (sids.get ⟨i, hi⟩))) = true)
    (hd : env.result (EC2Call.detachInternetGateway g vpc_id) = Except.ok r1)
    (hg : env.result (EC2Call.deleteInternetGateway g) = Except.ok r2)
    (hv : env.result (EC2Call.deleteVpc vpc_id) = Except.error e) :
    delete_vpc_resources env vpc_id (some sids) (some g) =
      (sids.map EC2Call.deleteSubnet ++
        [EC2Call.detachInternetGateway g vpc_id, EC2Call.deleteInternetGateway g,
         EC2Call.deleteVpc vpc_id, EC2Call.describeNetworkInterfaces vpc_id,
         EC2Call.describeRouteTables vpc_id, EC2Call.describeVpcEndpoints vpc_id],
       Except.error e) := by
  simp only [delete_vpc_resources, Option.getD_some]
  rw [deleteSubnetsLoop_ok env sids [] hs]
  simp only [hd, hg, hv, diagnosticSweep]
  simp

/-- Environment in which the VPC delete fails AND all three diagnostic
describe calls fail too. -/
def envC9 : EC2Env :=
  ⟨fun c =>
    match c with
    | EC2Call.deleteVpc _ => Except.error ⟨"DependencyViolation"⟩
    | EC2Call.describeNetworkInterfaces _ => Except.error ⟨"RequestLimitExceeded"⟩
    | EC2Call.describeRouteTables _ => Except.error ⟨"RequestLimitExceeded"⟩
    | EC2Call.describeVpcEndpoints _ => Except.error ⟨"RequestLimitExceeded"⟩
    | _ => Except.ok "",
   "us-east-1", "t0"⟩

/-- C9 witness: the sweep runs even though every describe call fails,
and the original `DependencyViolation` is still the outcome. -/
theorem teardown_diagnostic_sweep_preserves_error_witness :
    delete_vpc_resources envC9 "vpc-9" (some ["s1"]) (some "igw-9") =
      ([EC2Call.deleteSubnet "s1",
        EC2Call.detachInternetGateway "igw-9" "vpc-9",
        EC2Call.deleteInternetGateway "igw-9",
        EC2Call.deleteVpc "vpc-9",
        EC2Call.describeNetworkInterfaces "vpc-9",
        EC2Call.describeRouteTables "vpc-9",
        EC2Call.describeVpcEndpoints "vpc-9"],
       Except.error ⟨"DependencyViolation"⟩) :=
  teardown_diagnostic_sweep_preserves_error envC9 "vpc-9" ["s1"] "igw-9"
    ⟨"DependencyViolation"⟩ "" ""
    (by decide) rfl rfl rfl

/-- C1 (amended): when subnet creation at 0-based position `k` fails
after positions `0..k-1` succeeded, the already-created subnets are
each issued a delete call IN CREATION ORDER (`ids 0, ids 1, ...,
ids (k-1)` — not reverse), then the gateway is detached (and deleted
only when the detach succeeded), then the network is deleted; the
error surfaced is the original subnet-creation error and the
repository is unchanged. -/
theorem subnet_failure_compensation_and_error (env : EC2Env)
    (request : CreateVPCRequest) (created_by : String) (st : RepoState)
    (vpc_id igw_id r2 r3 r5 : String) (ids : Nat → String) (k : Nat)
    (e : ClientError) (hk : k < request.subnets.length)
    (h1 : env.result (EC2Call.createVpc request.vpc_cidr
      (tag_specs "vpc" request.vpc_name (pyDictOr request.tags))) = Except.ok vpc_id)
    (h2 : env.result (EC2Call.modifyVpcAttributeHostnames vpc_id true) =
      Except.ok r2)
    (h3 : env.result (EC2Call.modifyVpcAttributeDnsSupport vpc_id true) =
      Except.ok r3)
    (h4 : env.result (EC2Call.createInternetGateway (tag_specs "internet-gateway"
      (request.vpc_name ++ "-igw") (pyDictOr request.tags))) = Except.ok igw_id)
    (h5 : env.result (EC2Call.attachInternetGateway igw_id vpc_id) =
      Except.ok r5)
    (hsucc : ∀ i (hi : i < k),
      env.result (subnetCreateCall vpc_id request.vpc_name (pyDictOr request.tags)
        i (request.subnets.get ⟨i, Nat.lt_trans hi hk⟩)) = Except.ok (ids i))
    (hfail : env.result (subnetCreateCall vpc_id request.vpc_name
      (pyDictOr request.tags) k (request.subnets.get ⟨k, hk⟩)) = Except.error e) :
    provision_vpc env request created_by st =
      (initCalls request.vpc_cidr request.vpc_name (pyDictOr request.tags)
          vpc_id igw_id ++
        subnetCreateCalls vpc_id request.vpc_name (pyDictOr request.tags) 0
          (request.subnets.take (k + 1)) ++
        (List.range k).map (fun i => EC2Call.deleteSubnet (ids i)) ++
        (match env.result (EC2Call.detachInternetGateway igw_id vpc_id) with
         | Except.error _ => [EC2Call.detachInternetGateway igw_id vpc_id]
         | Except.ok _ => [EC2Call.detachInternetGateway igw_id vpc_id,
             EC2Call.deleteInternetGateway igw_id]) ++
        [EC2Call.deleteVpc vpc_id],
       st, Except.error e) := by
  have hsucc' : ∀ i (hi : i < k),
      env.result (subnetCreateCall vpc_id request.vpc_name (pyDictOr request.tags)
        (0 + i) (request.subnets.get ⟨i, Nat.lt_trans hi hk⟩)) =
        Except.ok (ids (0 + i)) := by
    intro i hi; simpa using hsucc i hi
  have hfail' : env.result (subnetCreateCall vpc_id request.vpc_name
      (pyDictOr request.tags) (0 + k) (request.subnets.get ⟨k, hk⟩)) =
      Except.error e := by simpa using hfail
  have hloop := createSubnetsLoop_fail env request.vpc_name vpc_id igw_id
    (pyDictOr request.tags) ids e request.subnets k 0 []
    (initCalls request.vpc_cidr request.vpc_name (pyDictOr request.tags)
      vpc_id igw_id) hk hsucc' hfail'
  simp only [provision_vpc]
  rw [create_vpc_with_subnets_stepsOk env request.vpc_cidr request.subnets
    request.vpc_name request.tags created_by vpc_id igw_id r2 r3 r5
    h1 h2 h3 h4 h5]
  rw [hloop]
  rw [cleanup_on_error_eq]
  simp [List.map_map, Function.comp, List.append_assoc]

/-- Environment for the C1 scenario: three subnets requested, the first
two created as `subnet-1`, `subnet-2`, the third failing; all other
calls succeed. -/
def envC1 : EC2Env :=
  ⟨fun c =>
    match c with
    | EC2Call.createVpc _ _ => Except.ok "vpc-1"
    | EC2Call.createInternetGateway _ => Except.ok "igw-1"
    | EC2Call.createSubnet _ cidr _ _ =>
      if cidr = "10.0.3.0/24" then Except.error ⟨"InvalidSubnet.Conflict"⟩
      else if cidr = "10.0.1.0/24" then Except.ok "subnet-1"
      else Except.ok "subnet-2"
    | _ => Except.ok "",
   "us-east-1", "t0"⟩

def reqC1 : CreateVPCRequest :=
  ⟨"10.0.0.0/16", "demo",
   [⟨"10.0.1.0/24", "us-east-1a", none⟩,
    ⟨"10.0.2.0/24", "us-east-1b", none⟩,
    ⟨"10.0.3.0/24", "us-east-1c", none⟩], none⟩

def idsC1 : Nat → String := fun i => if i = 0 then "subnet-1" else "subnet-2"

/-- C1 counterexample to the claimed REVERSE deletion order: with two
subnets created before the failure, the compensation path issues the
delete calls as `subnet-1` then `subnet-2` (creation order), which is
NOT the claimed order `subnet-2` then `subnet-1`. -/
theorem subnet_failure_compensation_order_counterexample :
    ((provision_vpc envC1 reqC1 "api" []).1.filter isDeleteSubnetCall =
      [EC2Call.deleteSubnet "subnet-1", EC2Call.deleteSubnet "subnet-2"]) ∧
    ((provision_vpc envC1 reqC1 "api" []).1.filter isDeleteSubnetCall ≠
      [EC2Call.deleteSubnet "subnet-2", EC2Call.deleteSubnet "subnet-1"]) := by
  decide

/-- C1 witness: the amended theorem instantiated on the concrete
three-subnet scenario. -/
theorem subnet_failure_compensation_and_error_witness :
    provision_vpc envC1 reqC1 "api" [] =
      ([EC2Call.createVpc "10.0.0.0/16" (tag_specs "vpc" "demo" []),
        EC2Call.modifyVpcAttributeHostnames "vpc-1" true,
        EC2Call.modifyVpcAttributeDnsSupport "vpc-1" true,
        EC2Call.createInternetGateway (tag_specs "internet-gateway" "demo-igw" []),
        EC2Call.attachInternetGateway "igw-1" "vpc-1",
        EC2Call.createSubnet "vpc-1" "10.0.1.0/24" "us-east-1a"
          (tag_specs "subnet" "demo-subnet-1" []),
        EC2Call.createSubnet "vpc-1" "10.0.2.0/24" "us-east-1b"
          (tag_specs "subnet" "demo-subnet-2" []),
        EC2Call.createSubnet "vpc-1" "10.0.3.0/24" "us-east-1c"
          (tag_specs "subnet" "demo-subnet-3" []),
        EC2Call.deleteSubnet "subnet-1",
        EC2Call.deleteSubnet "subnet-2",
        EC2Call.detachInternetGateway "igw-1" "vpc-1",
        EC2Call.deleteInternetGateway "igw-1",
        EC2Call.deleteVpc "vpc-1"],
       [], Except.error ⟨"InvalidSubnet.Conflict"⟩) := by
  rw [subnet_failure_compensation_and_error envC1 reqC1 "api" []
    "vpc-1" "igw-1" "" "" "" idsC1 2 ⟨"InvalidSubnet.Conflict"⟩
    (by decide) rfl rfl rfl rfl rfl
    (by intro i hi; interval_cases i <;> rfl) rfl]
  rfl

/-- Environment for the C3 scenario: two subnets requested, the first
created as `subnet-1`, the second failing; the gateway DETACH also
fails during cleanup. -/
def envC3 : EC2Env :=
  ⟨fun c =>
    match c with
    | EC2Call.createVpc _ _ => Except.ok "vpc-1"
    | EC2Call.createInternetGateway _ => Except.ok "igw-1"
    | EC2Call.createSubnet _ cidr _ _ =>
      if cidr = "10.0.2.0/24" then Except.error ⟨"SubnetBoom"⟩
      else Except.ok "subnet-1"
    | EC2Call.detachInternetGateway _ _ => Except.error ⟨"DetachBoom"⟩
    | _ => Except.ok "",
   "us-east-1", "t0"⟩

def specsC3 : List SubnetRequest :=
  [⟨"10.0.1.0/24", "us-east-1a", none⟩, ⟨"10.0.2.0/24", "us-east-1b", none⟩]

/-- C3 counterexample to "every delete call is independently wrapped":
in the compensation path triggered by the second subnet's creation
failure, the failing gateway DETACH prevents the gateway DELETE from
being attempted (they share one try/except), even though the network
delete still runs and the original error is still surfaced. -/
theorem compensation_wrapping_counterexample :
    (EC2Call.deleteSubnet "subnet-1" ∈
      (create_vpc_with_subnets envC3 "10.0.0.0/16" specsC3 "demo" none "api").1) ∧
    (EC2Call.detachInternetGateway "igw-1" "vpc-1" ∈
      (create_vpc_with_subnets envC3 "10.0.0.0/16" specsC3 "demo" none "api").1) ∧
    (EC2Call.deleteVpc "vpc-1" ∈
      (create_vpc_with_subnets envC3 "10.0.0.0/16" specsC3 "demo" none "api").1) ∧
    (EC2Call.deleteInternetGateway "igw-1" ∉
      (create_vpc_with_subnets envC3 "10.0.0.0/16" specsC3 "demo" none "api").1) ∧
    ((create_vpc_with_subnets envC3 "10.0.0.0/16" specsC3 "demo" none "api").2 =
      Except.error ⟨"SubnetBoom"⟩) :=
  ⟨by decide, by decide, by decide, by decide, rfl⟩

/-- C3 (amended): in the compensation path each subnet delete and the
network delete are independently wrapped and always attempted, and
the loop re-raises the original triggering error; but the gateway
detach and gateway delete share one wrapper: the gateway delete is
attempted iff the detach succeeded. -/
theorem compensation_best_effort_structure (env : EC2Env)
    (vpc_id igw_id : String) (sids : List String) (tr : List EC2Call) :
    (∀ s ∈ sids, EC2Call.deleteSubnet s ∈
      cleanup_on_error env vpc_id igw_id sids tr) ∧
    (EC2Call.detachInternetGateway igw_id vpc_id ∈
      cleanup_on_error env vpc_id igw_id sids tr) ∧
    (EC2Call.deleteVpc vpc_id ∈ cleanup_on_error env vpc_id igw_id sids tr) ∧
    (∀ r, env.result (EC2Call.detachInternetGateway igw_id vpc_id) =
        Except.ok r →
      EC2Call.deleteInternetGateway igw_id ∈
        cleanup_on_error env vpc_id igw_id sids tr) ∧
    (∀ e', env.result (EC2Call.detachInternetGateway igw_id vpc_id) =
        Except.error e' →
      EC2Call.deleteInternetGateway igw_id ∉
        cleanup_on_error env vpc_id igw_id sids []) ∧
    (∀ (vpc_name : String) (extra_tags : List (String × String)) (idx : Nat)
        (spec : SubnetRequest) (rest : List SubnetRequest)
        (created : List SubnetDetail) (tr' : List EC2Call) (e : ClientError),
      env.result (subnetCreateCall vpc_id vpc_name extra_tags idx spec) =
        Except.error e →
      (createSubnetsLoop env vpc_name vpc_id igw_id extra_tags idx
        (spec :: rest) created tr').2 = Except.error e) := by
  refine ⟨?_, ?_, ?_, ?_, ?_, ?_⟩
  · intro s hs
    rw [cleanup_on_error_eq]
    simp [hs]
  · rw [cleanup_on_error_eq]
    cases env.result (EC2Call.detachInternetGateway igw_id vpc_id) <;> simp
  · rw [cleanup_on_error_eq]
    cases env.result (EC2Call.detachInternetGateway igw_id vpc_id) <;> simp
  · intro r h
    rw [cleanup_on_error_eq, h]
    simp
  · intro e' h
    rw [cleanup_on_error_eq, h]
    simp
  · intro vpc_name extra_tags idx spec rest created tr' e h
    rw [createSubnetsLoop_cons_err env vpc_name vpc_id igw_id extra_tags idx
      spec rest created tr' e h]

/-- C3 witness: on the concrete detach-fails environment, the subnet
delete is attempted, the gateway delete is not, and the loop result
is the original subnet error. -/
theorem compensation_best_effort_structure_witness :
    (EC2Call.deleteSubnet "subnet-1" ∈
      cleanup_on_error envC3 "vpc-1" "igw-1" ["subnet-1"] []) ∧
    (EC2Call.deleteInternetGateway "igw-1" ∉
      cleanup_on_error envC3 "vpc-1" "igw-1" ["subnet-1"] []) :=
  ⟨(compensation_best_effort_structure envC3 "vpc-1" "igw-1" ["subnet-1"] []).1
      "subnet-1" (by decide),
   (compensation_best_effort_structure envC3 "vpc-1" "igw-1"
      ["subnet-1"] []).2.2.2.2.1 ⟨"DetachBoom"⟩ rfl⟩

/-- C5: a fully successful run returns a record whose `subnets` list has
one entry per requested subnet, in request order, each carrying the
request's CIDR and availability zone, and carrying the auto-generated
name `{vpc_name}-subnet-{i+1}` exactly where no name was supplied. -/
theorem successful_creation_subnet_list (env : EC2Env) (vpc_cidr : String)
    (specs : List SubnetRequest) (vpc_name : String)
    (tags : Option (List (String × String))) (created_by : String)
    (vpc_id igw_id r2 r3 r5 : String) (ids : Nat → String)
    (h1 : env.result (EC2Call.createVpc vpc_cidr
      (tag_specs "vpc" vpc_name (pyDictOr tags))) = Except.ok vpc_id)
    (h2 : env.result (EC2Call.modifyVpcAttributeHostnames vpc_id true) =
      Except.ok r2)
    (h3 : env.result (EC2Call.modifyVpcAttributeDnsSupport vpc_id true) =
      Except.ok r3)
    (h4 : env.result (EC2Call.createInternetGateway (tag_specs "internet-gateway"
      (vpc_name ++ "-igw") (pyDictOr tags))) = Except.ok igw_id)
    (h5 : env.result (EC2Call.attachInternetGateway igw_id vpc_id) =
      Except.ok r5)
    (hsub : ∀ i (hi : i < specs.length),
      env.result (subnetCreateCall vpc_id vpc_name (pyDictOr tags) i
        (specs.get ⟨i, hi⟩)) = Except.ok (ids i)) :
    ∃ tr rec,
      create_vpc_with_subnets env vpc_cidr specs vpc_name tags created_by =
        (tr, Except.ok rec) ∧
      rec.subnets.length = specs.length ∧
      ∀ i (hi : i < specs.length), ∃ d, rec.subnets[i]? = some d ∧
        d.cidr = (specs.get ⟨i, hi⟩).cidr ∧
        d.availability_zone = (specs.get ⟨i, hi⟩).az ∧
        ((specs.get ⟨i, hi⟩).name = none →
          d.name = subnetAutoName vpc_name i) := by
  have hsub' : ∀ i (hi : i < specs.length),
      env.result (subnetCreateCall vpc_id vpc_name (pyDictOr tags) (0 + i)
        (specs.get ⟨i, hi⟩)) = Except.ok (ids (0 + i)) := by
    intro i hi; simpa using hsub i hi
  have hloop := createSubnetsLoop_ok env vpc_name vpc_id igw_id (pyDictOr tags)
    ids specs 0 []
    (initCalls vpc_cidr vpc_name (pyDictOr tags) vpc_id igw_id) hsub'
  refine ⟨initCalls vpc_cidr vpc_name (pyDictOr tags) vpc_id igw_id ++
      subnetCreateCalls vpc_id vpc_name (pyDictOr tags) 0 specs,
    ⟨vpc_id, vpc_name, vpc_cidr, igw_id, env.region,
      buildSubnets vpc_name ids 0 specs, pyDictOr tags, created_by, env.now,
      "active"⟩, ?_, ?_, ?_⟩
  · rw [create_vpc_with_subnets_stepsOk env vpc_cidr specs vpc_name tags
      created_by vpc_id igw_id r2 r3 r5 h1 h2 h3 h4 h5]
    rw [hloop]
    simp
  · simp [buildSubnets_length]
  · intro i hi
    refine ⟨⟨ids i, (specs.get ⟨i, hi⟩).cidr, (specs.get ⟨i, hi⟩).az,
      pyStrOr (specs.get ⟨i, hi⟩).name (subnetAutoName vpc_name i)⟩,
      ?_, rfl, rfl, ?_⟩
    · have := buildSubnets_getElem vpc_name ids specs 0 i hi
      simpa using this
    · intro hn
      simp only [List.get_eq_getElem] at hn
      simp [pyStrOr, hn]

/-- All-success environment for the C5 scenario: two subnets, the
first explicitly named, the second unnamed. -/
def envC5 : EC2Env :=
  ⟨fun c =>
    match c with
    | EC2Call.createVpc _ _ => Except.ok "vpc-5"
    | EC2Call.createInternetGateway _ => Except.ok "igw-5"
    | EC2Call.createSubnet _ cidr _ _ =>
      if cidr = "10.0.1.0/24" then Except.ok "subnet-A" else Except.ok "subnet-B"
    | _ => Except.ok "",
   "us-east-1", "t0"⟩

def specsC5 : List SubnetRequest :=
  [⟨"10.0.1.0/24", "us-east-1a", some "public-1"⟩,
   ⟨"10.0.2.0/24", "us-east-1b", none⟩]

def idsC5 : Nat → String := fun i => if i = 0 then "subnet-A" else "subnet-B"

/-- C5 witness: the record-shape theorem instantiated on the concrete
two-subnet success scenario. -/
theorem successful_creation_subnet_list_witness :
    ∃ tr rec,
      create_vpc_with_subnets envC5 "10.0.0.0/16" specsC5 "prod" none "alice" =
        (tr, Except.ok rec) ∧
      rec.subnets.length = specsC5.length ∧
      ∀ i (hi : i < specsC5.length), ∃ d, rec.subnets[i]? = some d ∧
        d.cidr = (specsC5.get ⟨i, hi⟩).cidr ∧
        d.availability_zone = (specsC5.get ⟨i, hi⟩).az ∧
        ((specsC5.get ⟨i, hi⟩).name = none →
          d.name = subnetAutoName "prod" i) :=
  successful_creation_subnet_list envC5 "10.0.0.0/16" specsC5 "prod" none
    "alice" "vpc-5" "igw-5" "" "" "" idsC5 rfl rfl rfl rfl rfl
    (by intro i hi; rw [show specsC5.length = 2 from rfl] at hi; interval_cases i <;> rfl)

/-- C10: a subnet whose name is supplied as the EMPTY STRING gets the
same auto-generated default as an absent name, because the code tests
the field for truthiness (`subnet_spec.get("name") or default`), and
`""` is falsy in Python. -/
theorem empty_name_treated_as_absent (env : EC2Env) (vpc_cidr : String)
    (specs : List SubnetRequest) (vpc_name : String)
    (tags : Option (List (String × String))) (created_by : String)
    (vpc_id igw_id r2 r3 r5 : String) (ids : Nat → String)
    (h1 : env.result (EC2Call.createVpc vpc_cidr
      (tag_specs "vpc" vpc_name (pyDictOr tags))) = Except.ok vpc_id)
    (h2 : env.result (EC2Call.modifyVpcAttributeHostnames vpc_id true) =
      Except.ok r2)
    (h3 : env.result (EC2Call.modifyVpcAttributeDnsSupport vpc_id true) =
      Except.ok r3)
    (h4 : env.result (EC2Call.createInternetGateway (tag_specs "internet-gateway"
      (vpc_name ++ "-igw") (pyDictOr tags))) = Except.ok igw_id)
    (h5 : env.result (EC2Call.attachInternetGateway igw_id vpc_id) =
      Except.ok r5)
    (hsub : ∀ i (hi : i < specs.length),
      env.result (subnetCreateCall vpc_id vpc_name (pyDictOr tags) i
        (specs.get ⟨i, hi⟩)) = Except.ok (ids i)) :
    ∃ tr rec,
      create_vpc_with_subnets env vpc_cidr specs vpc_name tags created_by =
        (tr, Except.ok rec) ∧
      ∀ i (hi : i < specs.length), (specs.get ⟨i, hi⟩).name = some "" →
        rec.subnets[i]? = some ⟨ids i, (specs.get ⟨i, hi⟩).cidr,
          (specs.get ⟨i, hi⟩).az, subnetAutoName vpc_name i⟩ := by
  have hsub' : ∀ i (hi : i < specs.length),
      env.result (subnetCreateCall vpc_id vpc_name (pyDictOr tags) (0 + i)
        (specs.get ⟨i, hi⟩)) = Except.ok (ids (0 + i)) := by
    intro i hi; simpa using hsub i hi
  have hloop := createSubnetsLoop_ok env vpc_name vpc_id igw_id (pyDictOr tags)
    ids specs 0 []
    (initCalls vpc_cidr vpc_name (pyDictOr tags) vpc_id igw_id) hsub'
  refine ⟨initCalls vpc_cidr vpc_name (pyDictOr tags) vpc_id igw_id ++
      subnetCreateCalls vpc_id vpc_name (pyDictOr tags) 0 specs,
    ⟨vpc_id, vpc_name, vpc_cidr, igw_id, env.region,
      buildSubnets vpc_name ids 0 specs, pyDictOr tags, created_by, env.now,
      "active"⟩, ?_, ?_⟩
  · rw [create_vpc_with_subnets_stepsOk env vpc_cidr specs vpc_name tags
      created_by vpc_id igw_id r2 r3 r5 h1 h2 h3 h4 h5]
    rw [hloop]
    simp
  · intro i hi hn
    have := buildSubnets_getElem vpc_name ids specs 0 i hi
    simp only [Nat.zero_add] at this
    rw [hn] at this
    simpa [pyStrOr] using this

/-- All-success environment for the C10 scenario: one subnet whose
name is supplied as the empty string. -/
def envC10 : EC2Env :=
  ⟨fun c =>
    match c with
    | EC2Call.createVpc _ _ => Except.ok "vpc-10"
    | EC2Call.createInternetGateway _ => Except.ok "igw-10"
    | EC2Call.createSubnet _ _ _ _ => Except.ok "subnet-X"
    | _ => Except.ok "",
   "us-east-1", "t0"⟩

def specsC10 : List SubnetRequest := [⟨"10.0.1.0/24", "us-east-1a", some ""⟩]

/-- C10 witness: a subnet with `name = some ""` ends up named
`web-subnet-1` (the auto-generated default). -/
theorem empty_name_treated_as_absent_witness :
    ∃ tr rec,
      create_vpc_with_subnets envC10 "10.0.0.0/16" specsC10 "web" none "bob" =
        (tr, Except.ok rec) ∧
      ∀ i (hi : i < specsC10.length), (specsC10.get ⟨i, hi⟩).name = some "" →
        rec.subnets[i]? = some ⟨(fun _ => "subnet-X") i,
          (specsC10.get ⟨i, hi⟩).cidr, (specsC10.get ⟨i, hi⟩).az,
          subnetAutoName "web" i⟩ :=
  empty_name_treated_as_absent envC10 "10.0.0.0/16" specsC10 "web" none "bob"
    "vpc-10" "igw-10" "" "" "" (fun _ => "subnet-X") rfl rfl rfl rfl rfl
    (by intro i hi; rw [show specsC10.length = 1 from rfl] at hi; interval_cases i; rfl)

/-- C6: a creation request whose VPC CIDR parses with a prefix length
outside [16, 28], or whose subnet list is empty, is rejected by the
schema validation before the route handler runs: the outcome is the
validation error, the repository is untouched and NO provider call of
any kind is issued (the EC2 trace is empty). -/
theorem validation_rejects_before_any_provider_call (env : EC2Env)
    (body : CreateVPCRequest) (current_user : String) (st : RepoState)
    (h : (∃ ip p, parseIPv4Network body.vpc_cidr = some (ip, p) ∧
           (p < 16 ∨ 28 < p)) ∨
         body.subnets = []) :
    create_vpc_endpoint env body current_user st =
      ([], st, CreateOutcome.validationError) := by
  have hv : validateCreateVPCRequest body = false := by
    rcases h with ⟨ip, p, hp, hrange⟩ | hempty
    · have ha : validate_vpc_cidr body.vpc_cidr = false := by
        unfold validate_vpc_cidr
        rw [hp]
        show decide (¬ (p > 28 ∨ p < 16)) = false
        simp only [decide_eq_false_iff_not, not_not]
        omega
      simp [validateCreateVPCRequest, ha]
    · simp [validateCreateVPCRequest, hempty]
  simp [create_vpc_endpoint, hv]

/-- All-success environment for the C6 scenario (it must never be
consulted). -/
def envC6 : EC2Env := ⟨fun _ => Except.ok "never-used", "us-east-1", "t0"⟩

def bodyC6 : CreateVPCRequest :=
  ⟨"10.0.0.0/15", "demo", [⟨"10.0.1.0/24", "us-east-1a", none⟩], none⟩

/-- C6 witness: a `/15` VPC CIDR is rejected with an empty provider
trace even on an all-success provider. -/
theorem validation_rejects_before_any_provider_call_witness :
    create_vpc_endpoint envC6 bodyC6 "alice" [] =
      ([], [], CreateOutcome.validationError) :=
  validation_rejects_before_any_provider_call envC6 bodyC6 "alice" []
    (Or.inl ⟨(10, 0, 0, 0), 15, by decide, Or.inl (by decide)⟩)

/-- Environment whose `delete_vpc` call reports a dependency violation
— the situation C2 is about. -/
def envC2 : EC2Env :=
  ⟨fun c =>
    match c with
    | EC2Call.deleteVpc _ => Except.error ⟨"DependencyViolation"⟩
    | _ => Except.ok "",
   "us-east-1", "t0"⟩

def recC2 : VpcRecord :=
  ⟨"vpc-123", "demo", "10.0.0.0/16", "igw-1", "us-east-1",
   [⟨"subnet-1", "10.0.1.0/24", "us-east-1a", "demo-subnet-1"⟩], [],
   "alice", "t0", "active"⟩

/-- C2 (code-bug evidence): the `DELETE /vpc/{vpc_id}` route only calls
`remove_vpc_record`, i.e. `repo.delete` — it never invokes the EC2
teardown (`delete_vpc_resources` has no caller).  So even when the
provider would report `DependencyViolation` for this VPC, the route
issues ZERO provider calls, removes the stored record and returns
204 no-content instead of the documented 409 conflict with the record
retained.  The second conjunct shows the teardown orchestrator, had
it been called on the same environment, would indeed have surfaced
the `DependencyViolation`. -/
theorem delete_endpoint_skips_provider_teardown :
    delete_vpc_endpoint envC2 "vpc-123" [recC2] =
      ([], [], DeleteOutcome.noContent) ∧
    (delete_vpc_resources envC2 "vpc-123" (some ["subnet-1"])
      (some "igw-1")).2 = Except.error ⟨"DependencyViolation"⟩ :=
  ⟨by decide, rfl⟩
